import Mathlib

/-!
Verification development for the CodeGenesis repository.

The repository is a small Flask application that generates coding-project
briefs (src/services/ai_generator.py), stores them in a sqlite table
(src/models/database.py) and offers query/update/export operations over that
table (src/services/project_service.py).  This file gives a shallow embedding
of those modules and settles the specification claims against it.

Modelling conventions:
  - Python strings are Lean `String`s; the Python helpers used by the code
    (`strip`, `lstrip('#')`, `split('\n')`, `capitalize`, `replace`,
    slicing, truthiness) are re-implemented bit-for-bit for the ASCII
    inputs the program handles.
  - A raised Python exception is an `Except.error` carrying a `PyError`.
  - The external markdown renderer is an arbitrary pure function
    `render : String → String`; `markdown.markdown(text, extensions=...)`
    additionally fails when an extension name is not a registered extension
    of the library, which the embedding checks against the library's
    extension-name list.
  - The sqlite table `projects` is the one created by `init_db` in
    src/models/database.py; its column list is embedded verbatim, and the
    embedding of each statement checks the column names it uses against
    that list exactly as sqlite does.  `cursor.execute(sql, params)`
    rejects a parameter bundle that is not a sequence, which the embedding
    checks through `sqlite_bind`.
  - `created_timestamp` values are modelled as `Nat` (the embedding never
    needs to inspect their textual form).
-/

namespace CodeGenesis

/-! ## Python string helpers -/

/-- Characters stripped by Python `str.strip()` (ASCII whitespace). -/
def pyIsSpace (c : Char) : Bool :=
  c = ' ' || c = '\t' || c = '\n' || c = '\x0d' || c = '\x0b' || c = '\x0c'

/-- Python `s.strip()`. -/
def pyStrip (s : String) : String :=
  ⟨((s.data.dropWhile pyIsSpace).reverse.dropWhile pyIsSpace).reverse⟩

/-- Python `s.lstrip('#')`. -/
def pyLstripHash (s : String) : String :=
  ⟨s.data.dropWhile (· = '#')⟩

/-- Python `s.startswith(pre)`, with the needle given as a character list. -/
def pyStartsWith (s : String) (pre : List Char) : Bool :=
  pre.isPrefixOf s.data

/-- Python `s.split(sep)` for a single-character separator: splitting never
drops pieces, and the empty string yields `[""]`. -/
def splitOnChar (sep : Char) : List Char → List String
  | [] => [""]
  | c :: cs =>
    match splitOnChar sep cs with
    | [] => [⟨[c]⟩]
    | r :: rs => if c = sep then "" :: r :: rs else ⟨c :: r.data⟩ :: rs

/-- Python `s.split('\n')`. -/
def pySplitLines (s : String) : List String :=
  splitOnChar '\n' s.data

/-- Python `s[:n]` (slicing counts code points). -/
def pySlice (n : Nat) (s : String) : String :=
  ⟨s.data.take n⟩

/-- Python `s.capitalize()`: first character uppercased, the rest lowercased. -/
def pyCapitalize (s : String) : String :=
  match s.data with
  | [] => ""
  | c :: cs => ⟨c.toUpper :: cs.map Char.toLower⟩

/-- Python `s.replace('# ', '')` on the character list: every left-to-right
non-overlapping occurrence of the two-character needle `"# "` is removed. -/
def removeHashSpace : List Char → List Char
  | [] => []
  | '#' :: ' ' :: rest => removeHashSpace rest
  | c :: rest => c :: removeHashSpace rest

/-- Python truthiness of a string: empty is falsy. -/
def pyTruthy (s : String) : Bool := s ≠ ""

/-- Python truthiness of an optional string (`None` and `""` are falsy). -/
def pyTruthyOpt : Option String → Bool
  | none => false
  | some s => s ≠ ""

/-! ## Python exceptions and sqlite parameter binding -/

/-- The exception kinds the embedded code can raise. -/
inductive PyError where
  | nameError (name : String)
  | keyError (key : String)
  | programmingError (msg : String)
  | operationalError (msg : String)
  | importError (msg : String)
  | groqAPIError (msg : String)
  deriving DecidableEq

/-- A Python value handed to `cursor.execute` as the parameter bundle. -/
inductive PyVal where
  | int (n : Int)
  | str (s : String)
  | tuple (vs : List String)
  | list (vs : List String)
  deriving DecidableEq

/-- Model of `cursor.execute(sql, params)` binding: the parameter bundle must be a sequence
(tuple, list, or string); anything else is rejected before the statement
runs, exactly as CPython's sqlite3 module does. -/
def sqlite_bind : PyVal → Except PyError (List String)
  | .tuple vs => .ok vs
  | .list vs => .ok vs
  | .str s => .ok (s.data.map fun c => ⟨[c]⟩)
  | _ => .error (.programmingError "parameters are of unsupported type")

/-! ## The markdown rendering collaborator -/

/-- Extension names registered by the `markdown` library; a string passed in
`extensions=[...]` that is not one of these makes `markdown.markdown` raise. -/
def markdown_builtin_extensions : List String :=
  ["extra", "abbr", "attr_list", "def_list", "fenced_code", "footnotes",
   "md_in_html", "tables", "admonition", "codehilite", "legacy_attrs",
   "legacy_em", "meta", "nl2br", "sane_lists", "smarty", "toc", "wikilinks"]

/-- Model of `markdown.markdown(text, extensions=exts)` with the pure rendering
function abstracted as `render`. -/
def markdown_render (render : String → String) (text : String)
    (exts : List String) : Except PyError String :=
  if exts.all (fun e => markdown_builtin_extensions.contains e) then
    .ok (render text)
  else
    .error (.importError "Failed loading extension")

/-! ## String literals of src/services/ai_generator.py

The fallback-template titles and bodies, the prompt-builder system prompt,
the three skill-tier guidance blocks and the user-prompt f-string below are
the literals of src/services/ai_generator.py, transcribed byte for byte
(including the indentation the Python triple-quoted strings contain). -/

def beginner_web_title : String :=
  "Personal Portfolio Website"

def beginner_web_content : String :=
  "# Personal Portfolio Website\n\n            ## Overview\n            Create a personal portfolio website to showcase your projects and skills.\n\n            ## Learning Objectives\n            - HTML structure and semantic elements\n            - CSS styling and responsive design\n            - Basic JavaScript for interactivity\n\n            ## Features\n            - Home page with introduction\n            - Projects section\n            - Skills section\n            - Contact form\n\n            ## Implementation Details\n            Create a multi-page or single-page website with clean, responsive design.\n\n            ## Getting Started\n            1. Set up your project folder\n            2. Create HTML files for each page or section\n            3. Create CSS files for styling\n            4. Add JavaScript for interactive elements\n\n            ## Code Examples\n\n            ### HTML Structure\n            \x60\x60\x60html\n            <!DOCTYPE html>\n            <html lang=\"en\">\n            <head>\n                <meta charset=\"UTF-8\">\n                <meta name=\"viewport\" content=\"width=device-width, initial-scale=1.0\">\n                <title>My Portfolio</title>\n                <link rel=\"stylesheet\" href=\"styles.css\">\n            </head>\n            <body>\n                <header>\n                    <nav>\n                        <ul>\n                            <li><a href=\"#home\">Home</a></li>\n                            <li><a href=\"#projects\">Projects</a></li>\n                            <li><a href=\"#skills\">Skills</a></li>\n                            <li><a href=\"#contact\">Contact</a></li>\n                        </ul>\n                    </nav>\n                </header>\n                \n                <main>\n                    <section id=\"home\">\n                        <h1>Hi, I\x27m [Your Name]</h1>\n                        <p>I\x27m a web developer passionate about creating amazing websites.</p>\n                    </section>\n                    \n                    <!-- Other sections go here -->\n                </main>\n                \n                <footer>\n                    <p>&copy; 2025 [Your Name]</p>\n                </footer>\n                \n                <script src=\"script.js\"></script>\n            </body>\n            </html>\n            \x60\x60\x60\n\n            ### CSS Example\n            \x60\x60\x60css\n            /* Base styles */\n            body \x7b\n                font-family: Arial, sans-serif;\n                line-height: 1.6;\n                margin: 0;\n                padding: 0;\n            \x7d\n\n            header \x7b\n                background-color: #333;\n                color: white;\n                padding: 1rem;\n            \x7d\n\n            nav ul \x7b\n                display: flex;\n                list-style: none;\n                padding: 0;\n            \x7d\n\n            nav li \x7b\n                margin-right: 1rem;\n            \x7d\n\n            nav a \x7b\n                color: white;\n                text-decoration: none;\n            \x7d\n\n            section \x7b\n                padding: 2rem;\n                min-height: 100vh;\n            \x7d\n            \x60\x60\x60\n\n            ### JavaScript Example\n            \x60\x60\x60javascript\n            // Smooth scrolling for navigation links\n            document.querySelectorAll(\x27nav a\x27).forEach(anchor => \x7b\n                anchor.addEventListener(\x27click\x27, function(e) \x7b\n                    e.preventDefault();\n                    \n                    const targetId = this.getAttribute(\x27href\x27);\n                    const targetSection = document.querySelector(targetId);\n                    \n                    window.scrollTo(\x7b\n                        top: targetSection.offsetTop,\n                        behavior: \x27smooth\x27\n                    \x7d);\n                \x7d);\n            \x7d);\n            \x60\x60\x60\n\n            ## Testing\n            - Validate HTML using W3C Validator\n            - Test responsive design using browser dev tools\n            - Check all links and navigation\n\n            ## Resources\n            - MDN Web Docs: https://developer.mozilla.org/\n            - CSS-Tricks: https://css-tricks.com/\n            - W3Schools: https://www.w3schools.com/\n\n            ## Extensions\n            - Add animations with CSS\n            - Implement a dark/light mode toggle\n            - Create a blog section\n            "

def intermediate_web_title : String :=
  "Weather Dashboard with API Integration"

def intermediate_web_content : String :=
  "# Weather Dashboard with API Integration\n\n            ## Overview\n            Build an interactive weather dashboard that fetches and displays weather data from a public API.\n\n            ## Learning Objectives\n            - Working with external APIs\n            - Asynchronous JavaScript (fetch/promises)\n            - Dynamic DOM manipulation\n            - Data visualization\n\n            ## Features\n            - Current weather conditions display\n            - 5-day forecast\n            - Location search functionality\n            - Save favorite locations\n            - Visual representation of weather data\n\n            ## Implementation Details\n            Use a weather API (like OpenWeatherMap) to fetch weather data based on user location or search. Display the data in an intuitive and visually appealing dashboard.\n\n            ## Getting Started\n            1. Sign up for a free API key at OpenWeatherMap\n            2. Set up your project structure\n            3. Create the UI components\n            4. Implement API calls and data processing\n\n            ## Development Steps\n            1. Design the dashboard layout\n            2. Implement the search functionality\n            3. Create API utility functions\n            4. Build data visualization components\n            5. Add local storage for saving favorites\n\n            ## Code Examples\n\n            ### API Utility Function\n            \x60\x60\x60javascript\n            // weather-api.js\n            const API_KEY = \x27your_api_key_here\x27;\n            const BASE_URL = \x27https://api.openweathermap.org/data/2.5\x27;\n\n            async function getWeatherByCity(city) \x7b\n                try \x7b\n                    const response = await fetch(\x60$\x7bBASE_URL\x7d/weather?q=$\x7bcity\x7d&units=metric&appid=$\x7bAPI_KEY\x7d\x60);\n                    \n                    if (!response.ok) \x7b\n                        throw new Error(\x60Weather data not found ($\x7bresponse.status\x7d)\x60);\n                    \x7d\n                    \n                    return await response.json();\n                \x7d catch (error) \x7b\n                    console.error(\x27Error fetching weather data:\x27, error);\n                    throw error;\n                \x7d\n            \x7d\n\n            async function getForecast(lat, lon) \x7b\n                try \x7b\n                    const response = await fetch(\n                        \x60$\x7bBASE_URL\x7d/forecast?lat=$\x7blat\x7d&lon=$\x7blon\x7d&units=metric&appid=$\x7bAPI_KEY\x7d\x60\n                    );\n                    \n                    if (!response.ok) \x7b\n                        throw new Error(\x60Forecast data not found ($\x7bresponse.status\x7d)\x60);\n                    \x7d\n                    \n                    return await response.json();\n                \x7d catch (error) \x7b\n                    console.error(\x27Error fetching forecast data:\x27, error);\n                    throw error;\n                \x7d\n            \x7d\n\n            export \x7b getWeatherByCity, getForecast \x7d;\n            \x60\x60\x60\n\n            ### Main App Logic\n            \x60\x60\x60javascript\n            // app.js\n            import \x7b getWeatherByCity, getForecast \x7d from \x27./weather-api.js\x27;\n\n            // DOM Elements\n            const searchForm = document.getElementById(\x27search-form\x27);\n            const cityInput = document.getElementById(\x27city-input\x27);\n            const currentWeatherEl = document.getElementById(\x27current-weather\x27);\n            const forecastEl = document.getElementById(\x27forecast\x27);\n            const favoritesEl = document.getElementById(\x27favorites\x27);\n\n            // Load favorites from localStorage\n            const favorites = JSON.parse(localStorage.getItem(\x27favorites\x27)) || [];\n\n            // Initialize the app\n            function init() \x7b\n                renderFavorites();\n                \n                // Load weather for default city or first favorite\n                const defaultCity = favorites[0] || \x27New York\x27;\n                loadWeatherData(defaultCity);\n                \n                // Set up event listeners\n                searchForm.addEventListener(\x27submit\x27, handleSearch);\n            \x7d\n\n            async function handleSearch(e) \x7b\n                e.preventDefault();\n                const city = cityInput.value.trim();\n                \n                if (city) \x7b\n                    await loadWeatherData(city);\n                    cityInput.value = \x27\x27;\n                \x7d\n            \x7d\n\n            async function loadWeatherData(city) \x7b\n                try \x7b\n                    // Show loading state\n                    currentWeatherEl.innerHTML = \x27<p>Loading...</p>\x27;\n                    forecastEl.innerHTML = \x27\x27;\n                    \n                    // Get current weather\n                    const weatherData = await getWeatherByCity(city);\n                    \n                    // Use coordinates to get forecast\n                    const \x7b lat, lon \x7d = weatherData.coord;\n                    const forecastData = await getForecast(lat, lon);\n                    \n                    // Render the data\n                    renderCurrentWeather(weatherData);\n                    renderForecast(forecastData);\n                \x7d catch (error) \x7b\n                    currentWeatherEl.innerHTML = \x60<p class=\"error\">Error: $\x7berror.message\x7d</p>\x60;\n                \x7d\n            \x7d\n\n            // Render functions and other app logic would follow...\n\n            init();\n            \x60\x60\x60\n\n            ## Testing\n            - Test with different city inputs\n            - Verify API error handling\n            - Test responsiveness on different devices\n            - Check local storage functionality\n\n            ## Resources\n            - OpenWeatherMap API: https://openweathermap.org/api\n            - MDN Fetch API: https://developer.mozilla.org/en-US/docs/Web/API/Fetch_API\n            - Chart.js (for data visualization): https://www.chartjs.org/\n\n            ## Extensions\n            - Add weather maps\n            - Implement geolocation for current position\n            - Add weather alerts\n            - Create hourly forecast view\n            "

def advanced_web_title : String :=
  "Real-time Collaborative Task Management System"

def advanced_web_content : String :=
  "# Real-time Collaborative Task Management System\n\n            ## Overview\n            Build a collaborative task management application with real-time updates, allowing teams to organize projects and tasks with live synchronization across clients.\n\n            ## Learning Objectives\n            - Real-time communication with WebSockets\n            - Advanced state management\n            - Database design and optimization\n            - Authentication and authorization\n            - Front-end/back-end architecture\n\n            ## Features\n            - User authentication and team management\n            - Project and task creation with hierarchical organization\n            - Real-time updates when tasks change\n            - File attachments and comments\n            - Notifications and activity feed\n            - Filtering and advanced search\n\n            ## Implementation Details\n            Create a Flask backend API with SQLite database and incorporate WebSockets for real-time updates. Build a dynamic front-end using vanilla JavaScript with proper state management patterns.\n\n            ## Architecture Overview\n\n            ### Backend\n            - Flask application serving REST API endpoints\n            - WebSockets for real-time communication\n            - SQLite database with appropriate indexes\n            - Authentication middleware\n            - File storage system\n\n            ### Frontend\n            - Component-based architecture\n            - State management system\n            - WebSocket client integration\n            - Responsive design system\n            - Offline capabilities using localStorage\n\n            ## Getting Started\n            1. Set up your development environment\n            2. Design your database schema\n            3. Create API endpoints\n            4. Implement WebSocket handlers\n            5. Build frontend components\n\n            ## Development Steps\n            1. Create database models and relationships\n            2. Implement user authentication system\n            3. Build REST API endpoints for CRUD operations\n            4. Set up WebSocket server for real-time events\n            5. Develop frontend state management\n            6. Implement UI components with real-time bindings\n\n            ## Code Examples\n\n            ### WebSocket Server Setup\n            \x60\x60\x60python\n            # websocket_server.py\n            from flask import Flask\n            from flask_socketio import SocketIO, emit, join_room, leave_room\n            from flask_jwt_extended import jwt_required, get_jwt_identity\n\n            app = Flask(__name__)\n            socketio = SocketIO(app, cors_allowed_origins=\"*\")\n\n            # Connected clients by user_id\n            connected_users = \x7b\x7d\n\n            @socketio.on(\x27connect\x27)\n            def handle_connect():\n                print(\x27Client connected\x27)\n\n            @socketio.on(\x27authenticate\x27)\n            def handle_authenticate(data):\n                try:\n                    # Verify JWT token (simplified - implement proper validation)\n                    user_id = verify_token(data[\x27token\x27])\n                    if not user_id:\n                        return False\n                    \n                    # Associate socket with user\n                    connected_users[user_id] = request.sid\n                    \n                    # Join user to their personal room\n                    join_room(f\"user_\x7buser_id\x7d\")\n                    \n                    # Join all project rooms the user is a member of\n                    projects = get_user_projects(user_id)\n                    for project in projects:\n                        join_room(f\"project_\x7bproject.id\x7d\")\n                        \n                    emit(\x27authenticated\x27, \x7b\x27status\x27: \x27success\x27\x7d)\n                except Exception as e:\n                    print(f\"Authentication error: \x7bstr(e)\x7d\")\n                    return False\n\n            @socketio.on(\x27task_update\x27)\n            def handle_task_update(data):\n                try:\n                    # Verify user has permission to update this task\n                    user_id = get_user_from_socket(request.sid)\n                    task_id = data[\x27task_id\x27]\n                    \n                    if not user_can_edit_task(user_id, task_id):\n                        return\n                    \n                    # Update task in database\n                    update_task(task_id, data[\x27updates\x27])\n                    \n                    # Get the project_id for this task\n                    project_id = get_project_id_for_task(task_id)\n                    \n                    # Broadcast to all users in this project room\n                    emit(\x27task_changed\x27, \x7b\n                        \x27task_id\x27: task_id,\n                        \x27updates\x27: data[\x27updates\x27],\n                        \x27updated_by\x27: user_id,\n                        \x27timestamp\x27: current_timestamp()\n                    \x7d, room=f\"project_\x7bproject_id\x7d\")\n                    \n                except Exception as e:\n                    print(f\"Task update error: \x7bstr(e)\x7d\")\n\n            @socketio.on(\x27disconnect\x27)\n            def handle_disconnect():\n                # Remove user from connected_users\n                for user_id, sid in connected_users.items():\n                    if sid == request.sid:\n                        del connected_users[user_id]\n                        break\n                print(\x27Client disconnected\x27)\n\n            if __name__ == \x27__main__\x27:\n                socketio.run(app, debug=True)\n            \x60\x60\x60\n\n            ### Frontend WebSocket Integration\n            \x60\x60\x60javascript\n            // websocket-client.js\n            class TaskSocket \x7b\n                constructor(baseUrl, authToken) \x7b\n                    this.socket = null;\n                    this.baseUrl = baseUrl;\n                    this.authToken = authToken;\n                    this.connectionPromise = null;\n                    this.eventHandlers = \x7b\n                        \x27task_changed\x27: [],\n                        \x27project_updated\x27: [],\n                        \x27comment_added\x27: []\n                    \x7d;\n                \x7d\n                \n                connect() \x7b\n                    if (this.connectionPromise) \x7b\n                        return this.connectionPromise;\n                    \x7d\n                    \n                    this.connectionPromise = new Promise((resolve, reject) => \x7b\n                        this.socket = io(this.baseUrl);\n                        \n                        this.socket.on(\x27connect\x27, () => \x7b\n                            console.log(\x27Socket connected\x27);\n                            \n                            // Authenticate with the server\n                            this.socket.emit(\x27authenticate\x27, \x7b token: this.authToken \x7d);\n                        \x7d);\n                        \n                        this.socket.on(\x27authenticated\x27, () => \x7b\n                            console.log(\x27Socket authenticated\x27);\n                            resolve(this.socket);\n                        \x7d);\n                        \n                        this.socket.on(\x27authentication_failed\x27, (error) => \x7b\n                            console.error(\x27Socket authentication failed:\x27, error);\n                            reject(error);\n                        \x7d);\n                        \n                        this.socket.on(\x27disconnect\x27, () => \x7b\n                            console.log(\x27Socket disconnected\x27);\n                            this.connectionPromise = null;\n                        \x7d);\n                        \n                        // Set up event listeners\n                        this.socket.on(\x27task_changed\x27, (data) => \x7b\n                            this._triggerEvent(\x27task_changed\x27, data);\n                        \x7d);\n                        \n                        this.socket.on(\x27project_updated\x27, (data) => \x7b\n                            this._triggerEvent(\x27project_updated\x27, data);\n                        \x7d);\n                        \n                        this.socket.on(\x27comment_added\x27, (data) => \x7b\n                            this._triggerEvent(\x27comment_added\x27, data);\n                        \x7d);\n                    \x7d);\n                    \n                    return this.connectionPromise;\n                \x7d\n                \n                on(event, callback) \x7b\n                    if (!this.eventHandlers[event]) \x7b\n                        this.eventHandlers[event] = [];\n                    \x7d\n                    \n                    this.eventHandlers[event].push(callback);\n                    return this;\n                \x7d\n                \n                _triggerEvent(event, data) \x7b\n                    if (this.eventHandlers[event]) \x7b\n                        this.eventHandlers[event].forEach(callback => callback(data));\n                    \x7d\n                \x7d\n                \n                updateTask(taskId, updates) \x7b\n                    this.connect().then(() => \x7b\n                        this.socket.emit(\x27task_update\x27, \x7b\n                            task_id: taskId,\n                            updates: updates\n                        \x7d);\n                    \x7d);\n                \x7d\n                \n                disconnect() \x7b\n                    if (this.socket) \x7b\n                        this.socket.disconnect();\n                        this.socket = null;\n                        this.connectionPromise = null;\n                    \x7d\n                \x7d\n            \x7d\n\n            export default TaskSocket;\n            \x60\x60\x60\n\n            ## Database Schema\n            \x60\x60\x60sql\n            -- Users table\n            CREATE TABLE users (\n                id INTEGER PRIMARY KEY AUTOINCREMENT,\n                username TEXT UNIQUE NOT NULL,\n                email TEXT UNIQUE NOT NULL,\n                password_hash TEXT NOT NULL,\n                created_at TIMESTAMP DEFAULT CURRENT_TIMESTAMP\n            );\n\n            -- Projects table\n            CREATE TABLE projects (\n                id INTEGER PRIMARY KEY AUTOINCREMENT,\n                name TEXT NOT NULL,\n                description TEXT,\n                created_by INTEGER NOT NULL,\n                created_at TIMESTAMP DEFAULT CURRENT_TIMESTAMP,\n                FOREIGN KEY (created_by) REFERENCES users (id)\n            );\n\n            -- Project members\n            CREATE TABLE project_members (\n                project_id INTEGER NOT NULL,\n                user_id INTEGER NOT NULL,\n                role TEXT NOT NULL,  -- \x27owner\x27, \x27editor\x27, \x27viewer\x27\n                joined_at TIMESTAMP DEFAULT CURRENT_TIMESTAMP,\n                PRIMARY KEY (project_id, user_id),\n                FOREIGN KEY (project_id) REFERENCES projects (id),\n                FOREIGN KEY (user_id) REFERENCES users (id)\n            );\n\n            -- Tasks table\n            CREATE TABLE tasks (\n                id INTEGER PRIMARY KEY AUTOINCREMENT,\n                project_id INTEGER NOT NULL,\n                title TEXT NOT NULL,\n                description TEXT,\n                status TEXT NOT NULL,\n                priority INTEGER NOT NULL,\n                assigned_to INTEGER,\n                created_by INTEGER NOT NULL,\n                parent_task_id INTEGER,\n                due_date TIMESTAMP,\n                created_at TIMESTAMP DEFAULT CURRENT_TIMESTAMP,\n                updated_at TIMESTAMP DEFAULT CURRENT_TIMESTAMP,\n                FOREIGN KEY (project_id) REFERENCES projects (id),\n                FOREIGN KEY (assigned_to) REFERENCES users (id),\n                FOREIGN KEY (created_by) REFERENCES users (id),\n                FOREIGN KEY (parent_task_id) REFERENCES tasks (id)\n            );\n\n            -- Task comments\n            CREATE TABLE comments (\n                id INTEGER PRIMARY KEY AUTOINCREMENT,\n                task_id INTEGER NOT NULL,\n                user_id INTEGER NOT NULL,\n                content TEXT NOT NULL,\n                created_at TIMESTAMP DEFAULT CURRENT_TIMESTAMP,\n                FOREIGN KEY (task_id) REFERENCES tasks (id),\n                FOREIGN KEY (user_id) REFERENCES users (id)\n            );\n\n            -- Task attachments\n            CREATE TABLE attachments (\n                id INTEGER PRIMARY KEY AUTOINCREMENT,\n                task_id INTEGER NOT NULL,\n                file_name TEXT NOT NULL,\n                file_path TEXT NOT NULL,\n                file_size INTEGER NOT NULL,\n                uploaded_by INTEGER NOT NULL,\n                uploaded_at TIMESTAMP DEFAULT CURRENT_TIMESTAMP,\n                FOREIGN KEY (task_id) REFERENCES tasks (id),\n                FOREIGN KEY (uploaded_by) REFERENCES users (id)\n            );\n\n            -- Activity logs\n            CREATE TABLE activity_logs (\n                id INTEGER PRIMARY KEY AUTOINCREMENT,\n                entity_type TEXT NOT NULL,  -- \x27task\x27, \x27project\x27, \x27comment\x27\n                entity_id INTEGER NOT NULL,\n                action TEXT NOT NULL,\n                user_id INTEGER NOT NULL,\n                details TEXT,\n                created_at TIMESTAMP DEFAULT CURRENT_TIMESTAMP,\n                FOREIGN KEY (user_id) REFERENCES users (id)\n            );\n\n            -- Create indexes for performance\n            CREATE INDEX idx_tasks_project_id ON tasks (project_id);\n            CREATE INDEX idx_tasks_assigned_to ON tasks (assigned_to);\n            CREATE INDEX idx_comments_task_id ON comments (task_id);\n            CREATE INDEX idx_attachments_task_id ON attachments (task_id);\n            CREATE INDEX idx_activity_logs_entity ON activity_logs (entity_type, entity_id);\n            \x60\x60\x60\n\n            ## Testing\n            - Unit test API endpoints\n            - Integration tests for WebSocket functionality\n            - End-to-end testing with automated UI tests\n            - Load testing for concurrent users\n\n            ## Resources\n            - Flask-SocketIO: https://flask-socketio.readthedocs.io/\n            - WebSockets API: https://developer.mozilla.org/en-US/docs/Web/API/WebSockets_API\n            - SQLite Documentation: https://www.sqlite.org/docs.html\n\n            ## Extensions\n            - Implement data synchronization for offline mode\n            - Add keyboard shortcuts for power users\n            - Create a mobile app version using the same backend\n            - Add time tracking features\n            - Implement advanced analytics dashboard\n            "

def system_prompt_text : String :=
  "You are Cynoz, an AI specialized in generating personalized coding projects. \n    Your task is to create practical, education project ideas tailored to user\x27s skill level and interstes.\n    Structure your repsonses in markdown format with clear sections and code examples where appropriate.\n    Be specific with project requirements and implementation details."

def beginner_guidance : String :=
  "\n        - Project should be achievabel in 1-2 days\n        - Include detailed step-by-step instructions\n        - Provide complete starter code for critical components\n        - Explain code concepts at a basic level\n        - Suggest learning resources for unfamiliar concepts\n        - Break down the project into small, managebale tasks\n        - Focus on fundamental rather than advanced patterns\n    "

def intermediate_guidance : String :=
  "\n        - Project should be achievable in 3-7 days\n        - Provide project structure and architecture guidance\n        - Include starter code for only complex sections\n        - Assume familiarity with basic programming concepts\n        - Focus on best practices and intermediate patterns\n        - Suggest ways to extend the project for additional learning\n    "

def advanced_guidance : String :=
  "\n        - Project should be challenging and take 1-3 weeks\n        - Focus on high-level architecture and technical decisions\n        - Minimal code exmaples (pseudocode or skeleton only)\n        - Introduce advanced concepts and design patterns\n        - Emphasize scalability, performance and code quality\n        - Suggest areas for creative probelm-solving\n    "

def user_prompt_text (skill_level tech_stack project_type guidance : String) : String :=
  "\n    Genrate a coding project for a " ++ skill_level ++ " developer with the following criteria:\n    Tech Stack: " ++ tech_stack ++ "\n    Project type: " ++ project_type ++ "\n\n    Requirements:\n    " ++ guidance ++ "\n\n    Format your response with the following sections:\n    1. Project title (a creative, descriptive name)\n    2. Overview (brief description of the project)\n    3. Learning Objectives (what skills be practiced)\n    4. Features (what the project shoudl accomplish)\n    5. Implementation details (architecture, components, etc.)\n    6. Getting started (setup instructions)\n    7. Development steps (breakdown of implementation tasks)\n    8. Code examples (key components with explanations)\n    9. Testing (how to verify functionality)\n    10. Resources (helpful documentation, tutorials)\n    11. Extensions (optional ways to enhance the project)\n\n    Make sure ALL the code examples are syntactically correct and properly formatted for the specified tech stack.\n    "

/-! ## src/services/ai_generator.py -/

/-- The structured prompt built for the remote model: a `system` and a `user`
text. -/
structure Prompt where
  system : String
  user : String
  deriving DecidableEq

/-- The dictionary both generation paths return (the "ProjectDraft" of the
specification). -/
structure ProjectDraft where
  title : String
  skill_level : String
  tech_stack : String
  project_type : String
  content_markdown : String
  content_html : String
  deriving DecidableEq

/-- The top-level `def` statements of src/services/ai_generator.py in source
order.  In Python a later `def` of the same name rebinds it, so the name
`get_fallback_template` resolves to the second (template store) definition,
and no top-level binding named `create_project_prompt` exists even though
`generate_project` calls one. -/
def ai_generator_top_level_defs : List String :=
  ["generate_project", "get_fallback_template", "call_groq_api",
   "process_api_response", "get_fallback_template"]

/-- The body of the first `get_fallback_template` definition (lines 50-119 of
src/services/ai_generator.py) — the prompt builder.  In the source this `def`
takes no parameters and refers to the names `skill_level`, `tech_stack` and
`project_type`, which are unbound when it is called; the function below is
that body abstracted over those three names, stating what the block computes.
Any `skill_level` other than `"beginner"` and `"intermediate"` selects the
advanced guidance block. -/
def create_project_prompt_body (skill_level tech_stack project_type : String) :
    Prompt :=
  let guidance :=
    if skill_level = "beginner" then beginner_guidance
    else if skill_level = "intermediate" then intermediate_guidance
    else advanced_guidance
  { system := system_prompt_text
    user := user_prompt_text skill_level tech_stack project_type guidance }

/-- The `templates` dictionary of the second `get_fallback_template`
definition, as a lookup from the `f"{skill_level}_{project_type}"` key to the
`(title, content_markdown)` pair of the entry. -/
def templates_lookup (key : String) : Option (String × String) :=
  if key = "beginner_web" then some (beginner_web_title, beginner_web_content)
  else if key = "intermediate_web" then
    some (intermediate_web_title, intermediate_web_content)
  else if key = "advanced_web" then
    some (advanced_web_title, advanced_web_content)
  else none

/-- Template selection inside `get_fallback_template`: the exact entry when
the `f"{skill_level}_{project_type}"` key is present, otherwise the
`beginner_web` entry with the title replaced by
`f"New {project_type.capitalize()} Project with {tech_stack}"`. -/
def fallback_selection (skill_level tech_stack project_type : String) :
    String × String :=
  match templates_lookup (skill_level ++ "_" ++ project_type) with
  | some t => t
  | none =>
    ("New " ++ pyCapitalize project_type ++ " Project with " ++ tech_stack,
     beginner_web_content)

/-- Embedding of `get_fallback_template(skill_level, tech_stack, project_type)` (the
second definition of that name, lines 180-859): selects the template and
returns the project dictionary, rendering the body with the `fenced_code`
and `tables` extensions. -/
def get_fallback_template (render : String → String)
    (skill_level tech_stack project_type : String) :
    Except PyError ProjectDraft := do
  let t := fallback_selection skill_level tech_stack project_type
  let html ← markdown_render render t.2 ["fenced_code", "tables"]
  pure { title := t.1
         skill_level := skill_level
         tech_stack := tech_stack
         project_type := project_type
         content_markdown := t.2
         content_html := html }

/-- Embedding of `process_api_response(response_text, skill_level, tech_stack,
project_type)`: the title is taken from the first line of the stripped
response that starts with `"# "`, with `line.replace('# ', '').strip()`
applied (note: `replace` removes every occurrence of `"# "`, not only the
leading marker); if no line matches, the title stays
`"New Coding Project"`. -/
def process_api_response (render : String → String)
    (response_text skill_level tech_stack project_type : String) :
    Except PyError ProjectDraft := do
  let lines := pySplitLines (pyStrip response_text)
  let title :=
    match lines.find? (fun l => pyStartsWith l ['#', ' ']) with
    | some line => pyStrip ⟨removeHashSpace line.data⟩
    | none => "New Coding Project"
  let html ← markdown_render render response_text ["fenced_code", "tables"]
  pure { title := title
         skill_level := skill_level
         tech_stack := tech_stack
         project_type := project_type
         content_markdown := response_text
         content_html := html }

/-- Truthiness of `GROQ_API_KEY`: `if not GROQ_API_KEY` treats both an absent
and an empty credential as missing. -/
def groq_key_missing : Option String → Bool
  | none => true
  | some s => s = ""

/-- The `try` block of `generate_project`.  With a credential present it
evaluates `create_project_prompt(skill_level, tech_stack, project_type)`,
but src/services/ai_generator.py binds no top-level name
`create_project_prompt` (the prompt builder was defined as a zero-parameter
`get_fallback_template`, itself rebound by the template store), so the call
raises `NameError` before the remote client (`remote`, standing for
`call_groq_api`) or `process_api_response` can run. -/
def generate_project_try (render : String → String)
    (remote : Prompt → Except PyError String) (apiKey : Option String)
    (skill_level tech_stack project_type : String) :
    Except PyError ProjectDraft := do
  if groq_key_missing apiKey then
    get_fallback_template render skill_level tech_stack project_type
  else do
    let prompt ← (.error (.nameError "create_project_prompt") :
      Except PyError Prompt)
    let raw ← remote prompt
    process_api_response render raw skill_level tech_stack project_type

/-- Embedding of `generate_project(skill_level, tech_stack, project_type)`: the `try`
block with its `except Exception` handler, which logs and falls back to
`get_fallback_template`. -/
def generate_project (render : String → String)
    (remote : Prompt → Except PyError String) (apiKey : Option String)
    (skill_level tech_stack project_type : String) :
    Except PyError ProjectDraft :=
  match generate_project_try render remote apiKey
      skill_level tech_stack project_type with
  | .ok d => .ok d
  | .error _ => get_fallback_template render skill_level tech_stack project_type

/-! ## src/models/database.py and src/services/project_service.py -/

/-- The columns of the `projects` table created by `init_db` in
src/models/database.py, in declaration order.  Note the fourth column is
named `technologies`, while every statement in
src/services/project_service.py refers to a column `tech_stack`. -/
def projects_table_columns : List String :=
  ["id", "user_id", "skill_level", "technologies", "project_type", "title",
   "content", "created_timestamp"]

/-- One row of the `projects` table (columns of `init_db`). -/
structure Row where
  id : Int
  user_id : String
  skill_level : String
  technologies : String
  project_type : String
  title : String
  content : String
  created_timestamp : Nat
  deriving DecidableEq

/-- The `projects` table: its rows plus the autoincrement counter the next
`INSERT` would use for `id`. -/
structure DB where
  rows : List Row
  nextId : Int
  deriving DecidableEq

/-- Embedding of `extract_title_from_content(content)` (lines 172-196): falsy (empty)
content gives `"Untitled Project"`; otherwise only the first line of the
stripped content is examined — stripped of leading `'#'`s and trimmed when
it starts with `'#'` (default if nothing remains), else truncated to its
first 50 characters (default if the line is empty). -/
def extract_title_from_content (content : String) : String :=
  if content = "" then "Untitled Project"
  else
    let lines := pySplitLines (pyStrip content)
    let first_line := pyStrip (lines.headD "")
    if pyStartsWith first_line ['#'] then
      let title := pyStrip (pyLstripHash first_line)
      if title = "" then "Untitled Project" else title
    else
      if first_line = "" then "Untitled Project" else pySlice 50 first_line

/-- The column list named by `save_project`'s `INSERT INTO projects (...)`. -/
def save_insert_columns : List String :=
  ["user_id", "skill_level", "tech_stack", "project_type", "title", "content"]

/-- Embedding of `save_project(user_id, skill_level, tech_stack, project_type, content)`
(lines 11-28): computes the title with `extract_title_from_content`, then
issues the `INSERT`.  sqlite rejects the statement because the named column
`tech_stack` does not exist in the table `init_db` creates (its column is
`technologies`), so the insert raises `OperationalError` and no row is
stored; the `.ok` branch below is what the insert would do and is
unreachable against that schema. -/
def save_project (db : DB)
    (user_id skill_level tech_stack project_type content : String)
    (now : Nat) : Except PyError (Int × DB) :=
  let title := extract_title_from_content content
  match save_insert_columns.find?
      (fun c => !(projects_table_columns.contains c)) with
  | some c => .error (.operationalError
      ("table projects has no column named " ++ c))
  | none =>
    .ok (db.nextId,
      { rows := db.rows ++
          [{ id := db.nextId, user_id := user_id, skill_level := skill_level,
             technologies := tech_stack, project_type := project_type,
             title := title, content := content, created_timestamp := now }],
        nextId := db.nextId + 1 })

/-- The dictionary `get_project` returns: `dict(project_row)` (keyed by the
table's column names) plus the `html_content` entry, present only when the
stored content is truthy. -/
structure ProjectRecord where
  row : Row
  html_content : Option String
  deriving DecidableEq

/-- Lookup `project[key]` on that dictionary: the table's column names plus
(possibly) `html_content` are the keys; anything else raises `KeyError`. -/
def project_dict_get (p : ProjectRecord) (key : String) :
    Except PyError String :=
  if key = "id" then .ok (toString p.row.id)
  else if key = "user_id" then .ok p.row.user_id
  else if key = "skill_level" then .ok p.row.skill_level
  else if key = "technologies" then .ok p.row.technologies
  else if key = "project_type" then .ok p.row.project_type
  else if key = "title" then .ok p.row.title
  else if key = "content" then .ok p.row.content
  else if key = "created_timestamp" then .ok (toString p.row.created_timestamp)
  else if key = "html_content" then
    match p.html_content with
    | some h => .ok h
    | none => .error (.keyError "html_content")
  else .error (.keyError key)

/-- Embedding of `get_project(project_id)` (lines 31-50): the parameter bundle of
`cursor.execute('SELECT * FROM projects WHERE id = ?', (project_id))` is the
bare integer `project_id` — `(project_id)` is not a one-element tuple — so
sqlite3 rejects it before the query runs.  The rest of the function (row
fetch, and markdown rendering with the `fenced_code` and `cdehilite`
extensions — `cdehilite` is not a registered extension name) is embedded
after that check and is unreachable. -/
def get_project (render : String → String) (db : DB) (project_id : Int) :
    Except PyError (Option ProjectRecord) := do
  let _params ← sqlite_bind (.int project_id)
  match db.rows.find? (fun r => r.id == project_id) with
  | none => pure none
  | some r =>
    if pyTruthy r.content then do
      let html ← markdown_render render r.content ["fenced_code", "cdehilite"]
      pure (some { row := r, html_content := some html })
    else
      pure (some { row := r, html_content := none })

/-- Embedding of `delete_project(project_id, user_id)` (lines 73-88). -/
def delete_project (db : DB) (project_id : Int) (user_id : String) :
    Except PyError (Bool × DB) :=
  let hit := fun (r : Row) => r.id == project_id && r.user_id == user_id
  let remaining := db.rows.filter (fun r => !(hit r))
  .ok (db.rows.any hit, { db with rows := remaining })

/-- The allow-list of `update_project`. -/
def update_allowed_fields : List String := ["title", "tech_stack", "content"]

/-- Applying one `SET field = value` of the `UPDATE` to a row.  Only `title`
and `content` are reachable: `tech_stack` (the third allow-listed key) is
not a column of the table, so an update naming it raises before any row is
touched. -/
def apply_update (r : Row) (kv : String × String) : Row :=
  if kv.1 = "title" then { r with title := kv.2 }
  else if kv.1 = "content" then { r with content := kv.2 }
  else r

/-- Embedding of `update_project(project_id, user_id, updates)` (lines 90-117): filters
`updates` through the allow-list; with no surviving field it returns `False`
without touching the database; otherwise it issues one `UPDATE ... WHERE
id = ? AND user_id = ?` and reports whether any row was affected.  sqlite
raises `OperationalError` when the `SET` clause names `tech_stack`, since
the table's column is `technologies`. -/
def update_project (db : DB) (project_id : Int) (user_id : String)
    (updates : List (String × String)) : Except PyError (Bool × DB) :=
  let update_fields :=
    updates.filter (fun kv => update_allowed_fields.contains kv.1)
  if update_fields.isEmpty then .ok (false, db)
  else
    match update_fields.find?
        (fun kv => !(projects_table_columns.contains kv.1)) with
    | some kv => .error (.operationalError ("no such column: " ++ kv.1))
    | none =>
      let hit := fun (r : Row) => r.id == project_id && r.user_id == user_id
      let rows := db.rows.map
        (fun r => if hit r then update_fields.foldl apply_update r else r)
      .ok (db.rows.any hit, { db with rows := rows })

/-- The `WHERE` conditions and parameters `search_projects` builds (lines
126-142): always `user_id = ?`; the `LIKE` pair only when `query` is truthy;
the `skill_level`/`project_type` equality filters only when supplied and
truthy. -/
def search_conditions (user_id query : String)
    (skill_level project_type : Option String) :
    List String × List String :=
  let cp := (["user_id = ?"], [user_id])
  let cp :=
    if pyTruthy query then
      (cp.1 ++ ["(title LIKE ? OR content LIKE ?)"],
       cp.2 ++ ["%" ++ query ++ "%", "%" ++ query ++ "%"])
    else cp
  let cp :=
    if pyTruthyOpt skill_level then
      (cp.1 ++ ["skill_level = ?"], cp.2 ++ [skill_level.getD ""])
    else cp
  let cp :=
    if pyTruthyOpt project_type then
      (cp.1 ++ ["project_type = ?"], cp.2 ++ [project_type.getD ""])
    else cp
  cp

/-- The column list of `search_projects`' `SELECT`. -/
def search_select_columns : List String :=
  ["id", "title", "skill_level", "tech_stack", "project_type",
   "created_timestamp"]

set_option linter.unusedVariables false in
/-- Embedding of `search_projects(user_id, query, skill_level, project_type)` (lines
120-155): builds the conditions, then runs `SELECT id, title, skill_level,
tech_stack, ... FROM projects WHERE ... ORDER BY created_timestamp DESC`.
The `SELECT` list names `tech_stack`, which is not a column of the table
`init_db` creates, so sqlite raises `OperationalError` for every call and
no rows are ever returned; the `.ok` branch is unreachable against that
schema. -/
def search_projects (db : DB) (user_id query : String)
    (skill_level project_type : Option String) :
    Except PyError (List Row) :=
  let _cp := search_conditions user_id query skill_level project_type
  match search_select_columns.find?
      (fun c => !(projects_table_columns.contains c)) with
  | some c => .error (.operationalError ("no such column: " ++ c))
  | none => .ok []

/-- Model of `json.dumps(project, indent=2)` on the project dictionary, abstracted to
a canonical rendering of the fields in dictionary order (the `html_content`
entry is included only when present).  Unreachable: `export_project` only
reaches it through `get_project`, which raises first. -/
def json_dumps_project (p : ProjectRecord) : String :=
  "\x7b \"id\": " ++ toString p.row.id ++
  ", \"user_id\": \"" ++ p.row.user_id ++
  "\", \"skill_level\": \"" ++ p.row.skill_level ++
  "\", \"technologies\": \"" ++ p.row.technologies ++
  "\", \"project_type\": \"" ++ p.row.project_type ++
  "\", \"title\": \"" ++ p.row.title ++
  "\", \"content\": \"" ++ p.row.content ++
  "\", \"created_timestamp\": " ++ toString p.row.created_timestamp ++
  (match p.html_content with
   | some h => ", \"html_content\": \"" ++ h ++ "\""
   | none => "") ++ " \x7d"

/-- The `html` branch of `export_project`: the f-string evaluates
`project['title']`, `project['skill_level']`, `project['tech_stack']`,
`project['project_type']` and `project['html_content']` left to right.  The
dictionary's key is `technologies` (from `SELECT *`), so
`project['tech_stack']` raises `KeyError` — this branch can never produce a
document.  The surrounding literal text of the f-string is elided after the
raising lookup. -/
def export_html_document (p : ProjectRecord) : Except PyError String := do
  let title ← project_dict_get p "title"
  let sl ← project_dict_get p "skill_level"
  let ts ← project_dict_get p "tech_stack"
  let pt ← project_dict_get p "project_type"
  let body ← project_dict_get p "html_content"
  pure ("<!DOCTYPE html>\n<html>\n<head>\n    <title>" ++ title ++
    "</title>\n" ++ "...skill \x22" ++ sl ++ "\x22 stack \x22" ++ ts ++
    "\x22 type \x22" ++ pt ++ "\x22...\n" ++ body ++ "\n</body>\n</html>")

/-- Embedding of `export_project(project_id, format='json')` (lines 198-245): fetches the
project via `get_project` (which raises for every id — see `get_project`),
then dispatches on the format key: `'json'`, `'md'` (not `'markdown'`) and
`'html'`; any other format yields `(None, None)`. -/
def export_project (render : String → String) (db : DB) (project_id : Int)
    (format : String) : Except PyError (Option (String × String)) := do
  let project ← get_project render db project_id
  match project with
  | none => pure none
  | some p =>
    if format = "json" then
      pure (some (json_dumps_project p, "application/json"))
    else if format = "md" then
      pure (some (p.row.content, "text/markdown"))
    else if format = "html" then do
      let doc ← export_html_document p
      pure (some (doc, "text/html"))
    else
      pure none

/-! ## Specification-side definitions

These definitions transcribe claim wording (not code) and are compared with
the embedded source functions in the theorems below. -/

/-- The title-derivation rule as the specification claims it for the Project
Store: the first heading line anywhere in the content, otherwise the first
50 characters of the first non-empty line, otherwise `"Untitled Project"`. -/
def title_by_first_heading_scan (content : String) : String :=
  match (pySplitLines content).find? (fun l => pyStartsWith l ['#']) with
  | some l => pyStrip (pyLstripHash l)
  | none =>
    match (pySplitLines content).find? (fun l => pyStrip l != "") with
    | some l => pySlice 50 l
    | none => "Untitled Project"

/-- The title-derivation rule the code actually implements (amended claim C8):
only the first line of the whitespace-stripped content is examined — here
expressed independently of the code via `takeWhile`, without line
splitting. -/
def title_first_line_only (content : String) : String :=
  if content = "" then "Untitled Project"
  else
    let first_line :=
      pyStrip ⟨(pyStrip content).data.takeWhile (fun c => c != '\n')⟩
    if pyStartsWith first_line ['#'] then
      let t := pyStrip (pyLstripHash first_line)
      if t = "" then "Untitled Project" else t
    else if first_line = "" then "Untitled Project" else pySlice 50 first_line

/-- The Response Processor title rule as the specification claims it: the
first line beginning with the `"# "` marker becomes the title with the
leading marker stripped (its two characters dropped) and the result
trimmed; `"New Coding Project"` when no line matches. -/
def title_marker_stripped (raw : String) : String :=
  match (pySplitLines (pyStrip raw)).find?
      (fun l => pyStartsWith l ['#', ' ']) with
  | some l => pyStrip ⟨l.data.drop 2⟩
  | none => "New Coding Project"

/-- The Response Processor title rule the code actually implements (amended
claim C9), written as a direct scan: the first line beginning with `"# "`
becomes the title with every occurrence of the two-character sequence
`"# "` removed and the result trimmed. -/
def title_scan_remove_all : List String → String
  | [] => "New Coding Project"
  | l :: rest =>
    if pyStartsWith l ['#', ' '] then pyStrip ⟨removeHashSpace l.data⟩
    else title_scan_remove_all rest

/-! ## Helper lemmas -/

theorem splitOnChar_ne_nil (sep : Char) (l : List Char) :
    splitOnChar sep l ≠ [] := by
  induction l with
  | nil => simp [splitOnChar]
  | cons c cs ih =>
    unfold splitOnChar
    cases h : splitOnChar sep cs with
    | nil => simp
    | cons r rs => by_cases hc : c = sep <;> simp [hc]

theorem splitOnChar_headD (sep : Char) (l : List Char) :
    (splitOnChar sep l).headD "" = ⟨l.takeWhile (fun c => c != sep)⟩ := by
  induction l with
  | nil => rfl
  | cons c cs ih =>
    unfold splitOnChar
    cases h : splitOnChar sep cs with
    | nil => exact absurd h (splitOnChar_ne_nil sep cs)
    | cons r rs =>
      rw [h] at ih
      simp only [List.headD_cons] at ih
      by_cases hc : c = sep
      · simp [hc, List.takeWhile]
      · have hb : (c != sep) = true := by simp [hc]
        simp only [if_neg hc, List.headD_cons, List.takeWhile, hb, cond_true]
        rw [ih]

theorem string_append_data (a b : String) :
    (a ++ b).data = a.data ++ b.data := rfl

/-- The synthesized miss-case title of the Fallback Template Store is never
empty, whatever the tech stack and project type are. -/
theorem synth_title_ne (ts pt : String) :
    "New " ++ pyCapitalize pt ++ " Project with " ++ ts ≠ "" := by
  apply String.ne_of_data_ne
  rw [string_append_data, string_append_data, string_append_data]
  intro h
  rw [List.append_eq_nil, List.append_eq_nil, List.append_eq_nil] at h
  exact absurd h.1.1.1 (by decide)

theorem fallback_title_ne (sl ts pt : String) :
    (fallback_selection sl ts pt).1 ≠ "" := by
  unfold fallback_selection
  cases h : templates_lookup (sl ++ "_" ++ pt) with
  | some t =>
    unfold templates_lookup at h
    split at h
    · cases h; exact (by decide : beginner_web_title ≠ "")
    · split at h
      · cases h; exact (by decide : intermediate_web_title ≠ "")
      · split at h
        · cases h; exact (by decide : advanced_web_title ≠ "")
        · cases h
  | none => exact synth_title_ne ts pt

theorem fallback_content_ne (sl ts pt : String) :
    (fallback_selection sl ts pt).2 ≠ "" := by
  unfold fallback_selection
  cases h : templates_lookup (sl ++ "_" ++ pt) with
  | some t =>
    unfold templates_lookup at h
    split at h
    · cases h; exact (by decide : beginner_web_content ≠ "")
    · split at h
      · cases h; exact (by decide : intermediate_web_content ≠ "")
      · split at h
        · cases h; exact (by decide : advanced_web_content ≠ "")
        · cases h
  | none => exact (by decide : beginner_web_content ≠ "")

/-- The function `get_fallback_template` never raises: selecting a template and rendering
it with the registered `fenced_code`/`tables` extensions always succeeds. -/
theorem get_fallback_template_eq (render : String → String) (sl ts pt : String) :
    get_fallback_template render sl ts pt =
      .ok { title := (fallback_selection sl ts pt).1, skill_level := sl,
            tech_stack := ts, project_type := pt,
            content_markdown := (fallback_selection sl ts pt).2,
            content_html := render (fallback_selection sl ts pt).2 } := rfl

/-- Every call of `generate_project` returns the fallback template: with a
missing credential it falls back directly, with a present credential the
`create_project_prompt` lookup raises `NameError` and the handler falls
back. -/
theorem gen_eq_fallback (render : String → String)
    (remote : Prompt → Except PyError String) (apiKey : Option String)
    (sl ts pt : String) :
    generate_project render remote apiKey sl ts pt =
      get_fallback_template render sl ts pt := by
  unfold generate_project generate_project_try
  by_cases h : groq_key_missing apiKey = true
  · rw [if_pos h, get_fallback_template_eq]
  · rw [if_neg h]
    rfl

theorem title_scan_remove_all_eq_find (ls : List String) :
    title_scan_remove_all ls =
      (match ls.find? (fun l => pyStartsWith l ['#', ' ']) with
       | some line => pyStrip ⟨removeHashSpace line.data⟩
       | none => "New Coding Project") := by
  induction ls with
  | nil => rfl
  | cons l rest ih =>
    unfold title_scan_remove_all
    cases hl : pyStartsWith l ['#', ' ']
    · simp [List.find?, hl, ih]
    · simp [List.find?, hl]

/-! ## Claim theorems -/

/-- Claim C1: for every skill level among the three, every non-empty tech
stack and project type, and any credential state and remote-client
behaviour, `generate_project` returns a `ProjectDraft` with non-empty
`title` and non-empty `content_markdown`, and never propagates an error to
its caller (the result is always `.ok`). -/
theorem c1_generate_never_errors_and_nonempty (render : String → String)
    (remote : Prompt → Except PyError String) (apiKey : Option String)
    (sl ts pt : String)
    (_hsl : sl ∈ (["beginner", "intermediate", "advanced"] : List String))
    (_hts : ts ≠ "") (_hpt : pt ≠ "") :
    ∃ d, generate_project render remote apiKey sl ts pt = .ok d ∧
      d.title ≠ "" ∧ d.content_markdown ≠ "" := by
  refine ⟨_, (gen_eq_fallback render remote apiKey sl ts pt).trans
    (get_fallback_template_eq render sl ts pt), ?_, ?_⟩
  · exact fallback_title_ne sl ts pt
  · exact fallback_content_ne sl ts pt

/-- Claim C1, witness: the theorem applied at a concrete input, with every
hypothesis discharged there. -/
theorem c1_generate_never_errors_and_nonempty_witness :
    ("beginner" ∈ (["beginner", "intermediate", "advanced"] : List String)) ∧
    ("HTML, CSS" : String) ≠ "" ∧ ("web" : String) ≠ "" ∧
    ∃ d, generate_project id (fun _ => .error (.groqAPIError "down")) none
        "beginner" "HTML, CSS" "web" = .ok d ∧
      d.title ≠ "" ∧ d.content_markdown ≠ "" :=
  ⟨by decide, by decide, by decide,
   c1_generate_never_errors_and_nonempty id
     (fun _ => .error (.groqAPIError "down")) none "beginner" "HTML, CSS"
     "web" (by decide) (by decide) (by decide)⟩

/-- Claim C2: whenever the remote client is unavailable or fails — in this
code, on every call whatsoever — `generate_project` succeeds with exactly
the Fallback Template Store's selection for `(skill_level, project_type)`:
the exact template when the `f"{skill_level}_{project_type}"` key exists,
otherwise the `beginner_web` template with a title synthesized from the
requested tech stack and project type; in particular the
`("beginner", "HTML, CSS", "web")` call with no credential yields the draft
titled `"Personal Portfolio Website"`. -/
theorem c2_failure_path_returns_fallback_store_selection :
    (∀ (render : String → String) (remote : Prompt → Except PyError String)
       (apiKey : Option String) (sl ts pt : String),
       generate_project render remote apiKey sl ts pt =
         get_fallback_template render sl ts pt)
    ∧ (∀ sl ts pt t, templates_lookup (sl ++ "_" ++ pt) = some t →
         fallback_selection sl ts pt = t)
    ∧ (∀ sl ts pt, templates_lookup (sl ++ "_" ++ pt) = none →
         fallback_selection sl ts pt =
           ("New " ++ pyCapitalize pt ++ " Project with " ++ ts,
            beginner_web_content))
    ∧ (∃ d, generate_project (fun s => s)
          (fun _ => .error (.groqAPIError "remote down")) none
          "beginner" "HTML, CSS" "web" = .ok d ∧
        d.title = "Personal Portfolio Website") := by
  refine ⟨fun render remote apiKey sl ts pt =>
      gen_eq_fallback render remote apiKey sl ts pt, ?_, ?_, ⟨_, rfl, rfl⟩⟩
  · intro sl ts pt t h
    unfold fallback_selection
    rw [h]
  · intro sl ts pt h
    unfold fallback_selection
    rw [h]

/-- Claim C2, witness: the store-selection conjuncts applied at concrete
keys, with their hypotheses discharged there. -/
theorem c2_failure_path_returns_fallback_store_selection_witness :
    templates_lookup ("beginner" ++ "_" ++ "web") =
      some (beginner_web_title, beginner_web_content)
    ∧ fallback_selection "beginner" "HTML, CSS" "web" =
      (beginner_web_title, beginner_web_content)
    ∧ templates_lookup ("advanced" ++ "_" ++ "tool") = none
    ∧ fallback_selection "advanced" "Rust" "tool" =
      ("New " ++ pyCapitalize "tool" ++ " Project with " ++ "Rust",
       beginner_web_content) :=
  ⟨rfl,
   c2_failure_path_returns_fallback_store_selection.2.1
     "beginner" "HTML, CSS" "web" _ rfl,
   rfl,
   c2_failure_path_returns_fallback_store_selection.2.2.1
     "advanced" "Rust" "tool" rfl⟩

/-- Claim C3 (code bug): the save/get round trip is impossible in this code.
`save_project` raises `OperationalError` for every input because its
`INSERT` names the column `tech_stack` while the table `init_db` creates
has `technologies`; and `get_project` raises for every id because its
parameter bundle is the bare integer `(project_id)` rather than a tuple
(and, past that, its markdown call names the unregistered extension
`cdehilite`). -/
theorem c3_save_get_roundtrip_raises :
    (∀ (db : DB) (u sl ts pt M : String) (now : Nat),
       save_project db u sl ts pt M now =
         .error (.operationalError
           "table projects has no column named tech_stack"))
    ∧ (∀ (render : String → String) (db : DB) (pid : Int),
       get_project render db pid =
         .error (.programmingError "parameters are of unsupported type")) :=
  ⟨fun _ _ _ _ _ _ _ => rfl, fun _ _ _ => rfl⟩

/-- Claim C4 (code bug): the prompt builder cannot be invoked.  The module
binds `get_fallback_template` twice (the prompt-building block is the first,
zero-parameter binding, shadowed by the template store) and binds no
`create_project_prompt` at all, so the orchestrator's prompt-builder call
raises `NameError`; the block's guidance logic itself does treat any skill
level other than `beginner`/`intermediate` as advanced. -/
theorem c4_prompt_builder_unbound_and_guidance_default :
    (ai_generator_top_level_defs.count "get_fallback_template" = 2
      ∧ ai_generator_top_level_defs.contains "create_project_prompt" = false)
    ∧ (∀ (render : String → String) (remote : Prompt → Except PyError String)
        (k sl ts pt : String), k ≠ "" →
        generate_project_try render remote (some k) sl ts pt =
          .error (.nameError "create_project_prompt"))
    ∧ (∀ sl ts pt, sl ≠ "beginner" → sl ≠ "intermediate" →
        create_project_prompt_body sl ts pt =
          { system := system_prompt_text,
            user := user_prompt_text sl ts pt advanced_guidance }) := by
  refine ⟨⟨by decide, by decide⟩, ?_, ?_⟩
  · intro render remote k sl ts pt hk
    unfold generate_project_try groq_key_missing
    rw [if_neg (by simpa using hk)]
    rfl
  · intro sl ts pt h1 h2
    simp only [create_project_prompt_body]
    rw [if_neg h1, if_neg h2]

/-- Claim C4, witness: the theorem applied at a concrete credential and a
concrete unrecognized skill level. -/
theorem c4_prompt_builder_unbound_and_guidance_default_witness :
    ("k" : String) ≠ "" ∧ ("EXPERT" : String) ≠ "beginner" ∧
    ("EXPERT" : String) ≠ "intermediate" ∧
    generate_project_try id (fun _ => .ok "x") (some "k")
      "EXPERT" "Rust" "tool" = .error (.nameError "create_project_prompt") ∧
    create_project_prompt_body "EXPERT" "Rust" "tool" =
      { system := system_prompt_text,
        user := user_prompt_text "EXPERT" "Rust" "tool" advanced_guidance } :=
  ⟨by decide, by decide, by decide,
   c4_prompt_builder_unbound_and_guidance_default.2.1 id (fun _ => .ok "x")
     "k" "EXPERT" "Rust" "tool" (by decide),
   c4_prompt_builder_unbound_and_guidance_default.2.2 "EXPERT" "Rust" "tool"
     (by decide) (by decide)⟩

/-- Claim C5 (code bug): `export_project` raises for every project id and
every format (including the supported ones), because `get_project` raises
before the format dispatch is reached; it can never return the
not-found-equivalent pair the claim describes. -/
theorem c5_export_always_raises :
    ∀ (render : String → String) (db : DB) (pid : Int) (format : String),
      export_project render db pid format =
        .error (.programmingError "parameters are of unsupported type") :=
  fun _ _ _ _ => rfl

/-- Claim C6 (code bug): `update_project` filters updates through the
allow-list `{title, tech_stack, content}` and is a no-op returning `false`
when nothing survives; an update naming only `title` affects exactly the
rows whose id and owner match and reports whether any did; but an update
naming `tech_stack` raises `OperationalError`, because the table's column
is `technologies`. -/
theorem c6_update_allowlist_behaviour_and_schema_failure :
    (∀ (db : DB) (pid : Int) (uid v : String),
       update_project db pid uid [("tech_stack", v)] =
         .error (.operationalError "no such column: tech_stack"))
    ∧ (∀ (db : DB) (pid : Int) (uid : String)
        (updates : List (String × String)),
       updates.filter (fun kv => update_allowed_fields.contains kv.1) = [] →
       update_project db pid uid updates = .ok (false, db))
    ∧ (∀ (db : DB) (pid : Int) (uid v : String),
       update_project db pid uid [("title", v)] =
         .ok (db.rows.any (fun r => r.id == pid && r.user_id == uid),
           ⟨db.rows.map (fun r =>
              if r.id == pid && r.user_id == uid then { r with title := v }
              else r),
            db.nextId⟩))
    ∧ (∀ (db : DB) (pid : Int) (uid v : String),
       db.rows.any (fun r => r.id == pid && r.user_id == uid) = false →
       update_project db pid uid [("title", v)] = .ok (false, db)) := by
  refine ⟨fun _ _ _ _ => rfl, ?_, fun _ _ _ _ => rfl, ?_⟩
  · intro db pid uid updates h
    unfold update_project
    rw [h]
    rfl
  · intro db pid uid v h
    have hall : ∀ r ∈ db.rows, (r.id == pid && r.user_id == uid) = false := by
      simpa using h
    have h3 : update_project db pid uid [("title", v)] =
        .ok (db.rows.any (fun r => r.id == pid && r.user_id == uid),
          ⟨db.rows.map (fun r =>
             if r.id == pid && r.user_id == uid then { r with title := v }
             else r),
           db.nextId⟩) := rfl
    rw [h3, h]
    have hmap : db.rows.map (fun r =>
        if r.id == pid && r.user_id == uid then { r with title := v }
        else r) = db.rows.map (fun r => r) :=
      List.map_congr_left (fun r hr => by simp [hall r hr])
    rw [hmap, List.map_id']

/-- Claim C6, witness: the no-op and no-matching-owner conjuncts applied at
concrete stores, with their hypotheses discharged there. -/
theorem c6_update_allowlist_behaviour_and_schema_failure_witness :
    ([(("note" : String), ("X" : String))].filter
       (fun kv => update_allowed_fields.contains kv.1) = [])
    ∧ update_project ⟨[⟨1, "u1", "beginner", "HTML", "web", "old", "C", 5⟩], 2⟩
        1 "u1" [("note", "X")] =
      .ok (false, ⟨[⟨1, "u1", "beginner", "HTML", "web", "old", "C", 5⟩], 2⟩)
    ∧ (DB.rows ⟨[⟨1, "u1", "beginner", "HTML", "web", "old", "C", 5⟩], 2⟩).any
        (fun r => r.id == 1 && r.user_id == "someone_else") = false
    ∧ update_project ⟨[⟨1, "u1", "beginner", "HTML", "web", "old", "C", 5⟩], 2⟩
        1 "someone_else" [("title", "X")] =
      .ok (false, ⟨[⟨1, "u1", "beginner", "HTML", "web", "old", "C", 5⟩], 2⟩) :=
  ⟨by decide,
   c6_update_allowlist_behaviour_and_schema_failure.2.1
     ⟨[⟨1, "u1", "beginner", "HTML", "web", "old", "C", 5⟩], 2⟩ 1 "u1"
     [("note", "X")] (by decide),
   by decide,
   c6_update_allowlist_behaviour_and_schema_failure.2.2.2
     ⟨[⟨1, "u1", "beginner", "HTML", "web", "old", "C", 5⟩], 2⟩ 1
     "someone_else" "X" (by decide)⟩

/-- Claim C7 (code bug): `search_projects` raises `OperationalError` for
every owner, query and filter combination — its `SELECT` list names the
column `tech_stack`, which the table `init_db` creates does not have — so
it can never return the matching rows the claim describes. -/
theorem c7_search_always_raises :
    ∀ (db : DB) (uid q : String) (sl pt : Option String),
      search_projects db uid q sl pt =
        .error (.operationalError "no such column: tech_stack") :=
  fun _ _ _ _ _ => rfl

/-- Claim C8, counterexample: for content whose first heading appears after
an earlier non-heading line, the code takes the first line, not the first
heading line as the claim states; and the save that the claim says persists
this title raises against the shipped schema. -/
theorem c8_counterexample_heading_scan :
    extract_title_from_content "intro\n# Real Title" = "intro"
    ∧ title_by_first_heading_scan "intro\n# Real Title" = "Real Title"
    ∧ ("intro" : String) ≠ "Real Title"
    ∧ save_project ⟨[], 1⟩ "u1" "beginner" "HTML, CSS" "web"
        "intro\n# Real Title" 0 =
      .error (.operationalError
        "table projects has no column named tech_stack") :=
  ⟨rfl, rfl, by decide, rfl⟩

/-- Claim C8 as amended: `save_project` derives the title it passes to its
`INSERT` via `extract_title_from_content`, which examines only the first
line of the whitespace-stripped content — leading-`'#'`-stripped and
trimmed when that line starts with `'#'` (default `"Untitled Project"` if
nothing remains), otherwise its first 50 characters, and
`"Untitled Project"` for empty or whitespace-only content; the `INSERT`
itself is then rejected by the shipped schema, so no title is persisted. -/
theorem c8_amended_first_line_title :
    (∀ content, extract_title_from_content content =
       title_first_line_only content)
    ∧ (∀ (db : DB) (u sl ts pt content : String) (now : Nat),
       save_project db u sl ts pt content now =
         .error (.operationalError
           "table projects has no column named tech_stack")) := by
  refine ⟨?_, fun _ _ _ _ _ _ _ => rfl⟩
  intro content
  unfold extract_title_from_content title_first_line_only pySplitLines
  simp only [splitOnChar_headD]

/-- Claim C9, counterexample: a heading line containing a further `"# "`
occurrence loses it too — `line.replace('# ', '')` removes every
occurrence, not only the leading marker the claim describes. -/
theorem c9_counterexample_replace_all :
    (∃ d, process_api_response (fun s => s) "# A # B" "beginner" "HTML" "web"
        = .ok d ∧ d.title = "A B")
    ∧ title_marker_stripped "# A # B" = "A # B"
    ∧ ("A B" : String) ≠ "A # B" :=
  ⟨⟨_, rfl, rfl⟩, rfl, by decide⟩

/-- Claim C9 as amended: the Response Processor scans the lines of the
stripped raw text in order; the first line beginning with `"# "` becomes
the title with every occurrence of the two-character sequence `"# "`
removed and the result trimmed; if no line begins with `"# "`, the title
is the placeholder `"New Coding Project"`.  The rest of the draft carries
the supplied metadata, the raw text, and its rendering. -/
theorem c9_amended_title_replace_all :
    ∀ (render : String → String) (raw sl ts pt : String),
      process_api_response render raw sl ts pt =
        .ok { title := title_scan_remove_all (pySplitLines (pyStrip raw)),
              skill_level := sl, tech_stack := ts, project_type := pt,
              content_markdown := raw, content_html := render raw } := by
  intro render raw sl ts pt
  rw [title_scan_remove_all_eq_find]
  rfl

/-- Claim C10 (code bug): with an empty query `search_projects` indeed omits
the text-match predicate entirely — the `WHERE` it builds is only
`user_id = ?` — but the call still raises `OperationalError` because the
`SELECT` list names the missing column `tech_stack`, so no caller ever
receives the owner's rows. -/
theorem c10_empty_query_omits_predicate_but_select_raises :
    (∀ uid : String,
       search_conditions uid "" none none = (["user_id = ?"], [uid]))
    ∧ (∀ (db : DB) (uid : String),
       search_projects db uid "" none none =
         .error (.operationalError "no such column: tech_stack")) :=
  ⟨fun _ => rfl, fun _ _ => rfl⟩

end CodeGenesis
